import Mathlib

/-!
Shallow embedding of the audio-routing graph implemented by
`TeacherAudioMixer` (utils/AudioMixer.js).

The mixer owns a fixed set of Web Audio nodes (three gain nodes, a
media-stream destination, the context destination) plus dynamically
created source nodes (one media-element source per successful
`loadMusic`, one media-stream source per `setTeacherStream` call).
Connections between nodes are modelled as a list of directed edges;
`node.disconnect()` (no arguments) removes every outgoing edge of that
node, exactly as in the Web Audio API.

Asynchrony is flattened: the single awaited load in `loadMusic` is
modelled by a boolean parameter telling whether the load resolved or
rejected.  Commands issued to the underlying platform (context resume,
element play / pause / seek) are collected in an ordered trace so that
ordering claims can be stated.
-/

namespace AudioMixer

/-- The nodes of the audio graph.  The three gain nodes, the stream
destination and the context destination are created once in the
constructor; media-element sources (music) and media-stream sources
(teacher microphone) are created dynamically and identified by a fresh
natural-number id.  A media-stream source also records the identity of
the stream it was created from. -/
inductive Node where
  | masterGain
  | teacherGain
  | musicGain
  | streamDest
  | ctxDest
  | mediaElementSource (id : Nat)
  | mediaStreamSource (id : Nat) (stream : Nat)
deriving DecidableEq, Repr

/-- State of the underlying `AudioContext`. -/
inductive CtxState where
  | running
  | suspended
deriving DecidableEq, Repr

/-- Platform commands issued by the mixer, recorded in order. -/
inductive Cmd where
  | resume
  | play (id : Nat)
  | pause (id : Nat)
  | seekZero (id : Nat)
deriving DecidableEq, Repr

/-- Constructor configuration: `config.initialTeacherVolume` and
`config.initialMusicVolume`, each possibly undefined. -/
structure Config where
  initialTeacherVolume : Option ℚ
  initialMusicVolume : Option ℚ
deriving DecidableEq, Repr

/-- The full state of a `TeacherAudioMixer` instance.

`connections` is the set (as a list) of live directed edges of the
audio graph.  `musicSource` holds the id of the media-element source
captured by the `this.musicSource` handle, `teacherSource` the id and
stream identity of the current media-stream source.  `streamId` is the
identity of `streamDestination.stream`, fixed at construction.
`nextId` is the supply of fresh node ids. -/
structure MixerState where
  connections : List (Node × Node)
  teacherGainValue : ℚ
  musicGainValue : ℚ
  musicSource : Option Nat
  teacherSource : Option (Nat × Nat)
  isPlaying : Bool
  ctxState : CtxState
  streamId : Nat
  nextId : Nat
deriving DecidableEq, Repr

/-- Remove every outgoing edge of node `n` — the effect of
`n.disconnect()` with no arguments. -/
def removeEdgesFrom (n : Node) (conns : List (Node × Node)) : List (Node × Node) :=
  conns.filter (fun e => e.1 ≠ n)

/-- The constructor.  Creates the three gain nodes and the stream
destination, wires `masterGain → ctx.destination`,
`teacherGain → masterGain`, `musicGain → masterGain`,
`teacherGain → streamDestination`, `musicGain → streamDestination`,
and initialises the two gain values from the config with fallbacks 1.0
and 0.3 (no clamping is performed here).  The initial context state is
platform-determined, so it is a parameter, as is the identity of the
destination stream. -/
def initState (cfg : Config) (ctx0 : CtxState) (sid : Nat) : MixerState :=
  { connections :=
      [ (Node.masterGain, Node.ctxDest)
      , (Node.teacherGain, Node.masterGain)
      , (Node.musicGain, Node.masterGain)
      , (Node.teacherGain, Node.streamDest)
      , (Node.musicGain, Node.streamDest) ]
  , teacherGainValue := cfg.initialTeacherVolume.getD 1
  , musicGainValue := cfg.initialMusicVolume.getD (3 / 10)
  , musicSource := none
  , teacherSource := none
  , isPlaying := false
  , ctxState := ctx0
  , streamId := sid
  , nextId := 0 }

/-- `loadMusic(url)`.  The awaited load either resolves (`loadOk =
true`) or rejects.  On success a fresh media-element source is created,
connected to `musicGain`, and stored in `this.musicSource`; the method
returns `true`.  On failure the catch block logs and returns `false`;
no node was created and no field was written.  Nothing disconnects a
previously stored music source. -/
def loadMusic (s : MixerState) (loadOk : Bool) : MixerState × Bool :=
  if loadOk then
    ({ s with
        connections := (Node.mediaElementSource s.nextId, Node.musicGain) :: s.connections
      , musicSource := some s.nextId
      , nextId := s.nextId + 1 }, true)
  else
    (s, false)

/-- `setTeacherStream(mediaStream)`.  If a teacher source exists its
outgoing edges are disconnected; then a fresh media-stream source for
the supplied stream is created, stored, and connected to
`teacherGain`. -/
def setTeacherStream (s : MixerState) (stream : Nat) : MixerState :=
  let conns :=
    match s.teacherSource with
    | some (id, st) => removeEdgesFrom (Node.mediaStreamSource id st) s.connections
    | none => s.connections
  { s with
      teacherSource := some (s.nextId, stream)
    , connections := (Node.mediaStreamSource s.nextId stream, Node.teacherGain) :: conns
    , nextId := s.nextId + 1 }

/-- `startMusic()`.  Guarded by `this.musicSource && !this.isPlaying`.
If the context is suspended it is resumed before `musicSource.start`
(which plays the audio element) is invoked; then `isPlaying` is set. -/
def startMusic (s : MixerState) : MixerState × List Cmd :=
  match s.musicSource with
  | some id =>
      if s.isPlaying then (s, [])
      else if s.ctxState = CtxState.suspended then
        ({ s with ctxState := CtxState.running, isPlaying := true },
         [Cmd.resume, Cmd.play id])
      else
        ({ s with isPlaying := true }, [Cmd.play id])
  | none => (s, [])

/-- `stopMusic()`.  Guarded by `this.musicSource && this.isPlaying`.
`musicSource.stop` pauses the element and seeks to 0; then `isPlaying`
is cleared. -/
def stopMusic (s : MixerState) : MixerState × List Cmd :=
  match s.musicSource with
  | some id =>
      if s.isPlaying then
        ({ s with isPlaying := false }, [Cmd.pause id, Cmd.seekZero id])
      else (s, [])
  | none => (s, [])

/-- `setMusicVolume(value)`: `musicGain.gain.value = Math.max(0, Math.min(1, value))`. -/
def setMusicVolume (s : MixerState) (v : ℚ) : MixerState :=
  { s with musicGainValue := max 0 (min 1 v) }

/-- `setTeacherVolume(value)`: `teacherGain.gain.value = Math.max(0, Math.min(1, value))`. -/
def setTeacherVolume (s : MixerState) (v : ℚ) : MixerState :=
  { s with teacherGainValue := max 0 (min 1 v) }

/-- `getMixedStream()`: returns `this.streamDestination.stream`. -/
def getMixedStream (s : MixerState) : Nat :=
  s.streamId

/-- `disconnect()`.  Disconnects the music source handle (if any), the
teacher source (if any), then the three gain nodes.  No field is
cleared and no closed flag is set. -/
def disconnect (s : MixerState) : MixerState :=
  let c1 :=
    match s.musicSource with
    | some id => removeEdgesFrom (Node.mediaElementSource id) s.connections
    | none => s.connections
  let c2 :=
    match s.teacherSource with
    | some (id, st) => removeEdgesFrom (Node.mediaStreamSource id st) c1
    | none => c1
  let c3 := removeEdgesFrom Node.teacherGain c2
  let c4 := removeEdgesFrom Node.musicGain c3
  let c5 := removeEdgesFrom Node.masterGain c4
  { s with connections := c5 }

/-- The live edges feeding the music gain stage (the merge point for
the music slot). -/
def musicEdges (s : MixerState) : List (Node × Node) :=
  s.connections.filter (fun e => e.2 = Node.musicGain)

/-- The live edges feeding the teacher gain stage. -/
def teacherEdges (s : MixerState) : List (Node × Node) :=
  s.connections.filter (fun e => e.2 = Node.teacherGain)

/-- Every edge into the teacher gain stage comes from the currently
stored teacher source node.  Holds in every reachable state; phrased as
a boolean so concrete states can be checked by evaluation. -/
def teacherOnlyCurrent (s : MixerState) : Bool :=
  (teacherEdges s).all fun e =>
    match s.teacherSource with
    | some (id, st) => e.1 = Node.mediaStreamSource id st
    | none => false

/-- The stored teacher source node id was allocated before `nextId`
(id freshness).  Holds in every reachable state. -/
def teacherIdFresh (s : MixerState) : Bool :=
  match s.teacherSource with
  | some (id, _) => id < s.nextId
  | none => true

/-- Example states used by concrete witnesses. -/
def exState : MixerState := initState ⟨none, none⟩ CtxState.running 0

/-- A mixer constructed with explicit volume config and a suspended
context (the autoplay-policy situation). -/
def exSuspended : MixerState := initState ⟨some 1, some 0⟩ CtxState.suspended 5

/-- `exSuspended` after one successful `loadMusic`: a music source is
attached, playback not yet started, context still suspended. -/
def exAttached : MixerState := (loadMusic exSuspended true).1

/-- `exAttached` after `startMusic`: music playing, context resumed. -/
def exPlaying : MixerState := (startMusic exAttached).1

theorem clamp_bounds (v : ℚ) : 0 ≤ max 0 (min 1 v) ∧ max 0 (min 1 v) ≤ 1 :=
  ⟨le_max_left 0 _, max_le (by norm_num) (min_le_left 1 v)⟩

theorem clamp_low (v : ℚ) (h : v ≤ 0) : max 0 (min 1 v) = 0 := by
  rw [min_eq_right (h.trans (by norm_num))]
  exact max_eq_left h

theorem clamp_high (v : ℚ) (h : 1 ≤ v) : max 0 (min 1 v) = 1 := by
  rw [min_eq_left h]
  exact max_eq_right (by norm_num)

/-- Claim C4: for either slot and every rational input v, the volume
setter never errors (it is a total function) and the stored gain lies
in [0,1] afterward, with v ≤ 0 clamped to 0 and v ≥ 1 clamped to 1. -/
theorem setVolume_clamps (s : MixerState) (v : ℚ) :
    (0 ≤ (setMusicVolume s v).musicGainValue ∧ (setMusicVolume s v).musicGainValue ≤ 1) ∧
    (0 ≤ (setTeacherVolume s v).teacherGainValue ∧ (setTeacherVolume s v).teacherGainValue ≤ 1) ∧
    (v ≤ 0 → (setMusicVolume s v).musicGainValue = 0 ∧ (setTeacherVolume s v).teacherGainValue = 0) ∧
    (1 ≤ v → (setMusicVolume s v).musicGainValue = 1 ∧ (setTeacherVolume s v).teacherGainValue = 1) := by
  refine ⟨clamp_bounds v, clamp_bounds v, fun h => ⟨clamp_low v h, clamp_low v h⟩,
    fun h => ⟨clamp_high v h, clamp_high v h⟩⟩

/-- Witness for C4 at a concrete state: an out-of-range low input is
clamped to 0 on the music slot, an out-of-range high input to 1 on the
teacher slot. -/
theorem setVolume_clamps_witness :
    (setMusicVolume exState (-2)).musicGainValue = 0 ∧
    (setTeacherVolume exState 3).teacherGainValue = 1 :=
  ⟨((setVolume_clamps exState (-2)).2.2.1 (by norm_num)).1,
   ((setVolume_clamps exState 3).2.2.2 (by norm_num)).2⟩

/-- Counterexample to C5: the constructor applies caller-supplied
initial volumes without clamping; `initialMusicVolume = 5` yields an
initial music gain of 5, outside [0,1]. -/
theorem init_gain_not_clamped :
    (initState ⟨none, some 5⟩ CtxState.running 0).musicGainValue = 5 ∧
    ¬ (initState ⟨none, some 5⟩ CtxState.running 0).musicGainValue ≤ 1 := by
  refine ⟨rfl, ?_⟩
  show ¬ (5 : ℚ) ≤ 1
  norm_num

/-- Claim C5 (amended): the gain stages are initialized from the
caller-supplied levels when present, otherwise from the fallback
defaults (teacher 1.0, music 0.3); the values are applied as-is, with
no clamping at construction. -/
theorem init_gains_from_config (cfg : Config) (c : CtxState) (sid : Nat) :
    (initState cfg c sid).teacherGainValue = cfg.initialTeacherVolume.getD 1 ∧
    (initState cfg c sid).musicGainValue = cfg.initialMusicVolume.getD (3 / 10) :=
  ⟨rfl, rfl⟩

/-- Counterexample to C2: after a successful load, a failed load leaves
the slot holding the previous source — it does not revert to absent. -/
theorem loadMusic_fail_not_absent :
    (loadMusic (loadMusic exState true).1 false).1.musicSource = some 0 ∧
    some 0 ≠ (none : Option Nat) :=
  ⟨rfl, by decide⟩

/-- Claim C2 (amended): a failed load reports failure (returns false)
and leaves the whole mixer state unchanged — no partial connection is
added, the music slot keeps its prior contents (so it remains absent
exactly when it was absent before), and no internal retry occurs. -/
theorem loadMusic_fail_unchanged (s : MixerState) : loadMusic s false = (s, false) :=
  rfl

/-- Claim C10: startMusic and stopMusic with no music source attached
never raise (they are total) and leave the entire state unchanged,
issuing no platform commands. -/
theorem music_ops_noop_when_absent (s : MixerState) (h : s.musicSource = none) :
    startMusic s = (s, []) ∧ stopMusic s = (s, []) := by
  constructor <;> simp [startMusic, stopMusic, h]

/-- Witness for C10 at a freshly constructed mixer. -/
theorem music_ops_noop_when_absent_witness :
    startMusic exState = (exState, []) ∧ stopMusic exState = (exState, []) :=
  music_ops_noop_when_absent exState rfl

/-- Claim C9: with a music source attached, startMusic on an
already-playing source and stopMusic on an already-stopped source are
no-ops: the state is returned unchanged and no command is issued. -/
theorem start_stop_idem (s : MixerState) (id : Nat) (h : s.musicSource = some id) :
    (s.isPlaying = true → startMusic s = (s, [])) ∧
    (s.isPlaying = false → stopMusic s = (s, [])) := by
  constructor <;> intro hp <;> simp [startMusic, stopMusic, h, hp]

/-- Witness for C9: a playing state is unchanged by startMusic, a
stopped state by stopMusic. -/
theorem start_stop_idem_witness :
    startMusic exPlaying = (exPlaying, []) ∧ stopMusic exAttached = (exAttached, []) :=
  ⟨(start_stop_idem exPlaying 0 rfl).1 rfl, (start_stop_idem exAttached 0 rfl).2 rfl⟩

/-- Claim C6: startMusic invoked with a music source attached, playback
stopped and the context suspended issues exactly the trace
[resume, play]: the resume command strictly precedes the play command. -/
theorem startMusic_resumes_first (s : MixerState) (id : Nat)
    (h : s.musicSource = some id) (hp : s.isPlaying = false)
    (hc : s.ctxState = CtxState.suspended) :
    (startMusic s).2 = [Cmd.resume, Cmd.play id] ∧
    ∃ l1 l2, (startMusic s).2 = l1 ++ Cmd.resume :: l2 ∧ Cmd.play id ∈ l2 := by
  have ht : (startMusic s).2 = [Cmd.resume, Cmd.play id] := by
    simp [startMusic, h, hp, hc]
  exact ⟨ht, [], [Cmd.play id], by rw [ht]; rfl, by simp⟩

/-- Witness for C6 at a concrete suspended mixer with music attached. -/
theorem startMusic_resumes_first_witness :
    (startMusic exAttached).2 = [Cmd.resume, Cmd.play 0] ∧
    ∃ l1 l2, (startMusic exAttached).2 = l1 ++ Cmd.resume :: l2 ∧ Cmd.play 0 ∈ l2 :=
  startMusic_resumes_first exAttached 0 rfl rfl rfl

/-- Claim C7: the mixed stream handed out by getMixedStream is created
once at construction and its identity is preserved by every operation,
including a failed or successful loadMusic, so callers may cache it. -/
theorem getMixedStream_stable (cfg : Config) (c : CtxState) (sid : Nat)
    (s : MixerState) (ok : Bool) (v w : ℚ) (stream : Nat) :
    getMixedStream (initState cfg c sid) = sid ∧
    getMixedStream (loadMusic s ok).1 = getMixedStream s ∧
    getMixedStream (setTeacherStream s stream) = getMixedStream s ∧
    getMixedStream (startMusic s).1 = getMixedStream s ∧
    getMixedStream (stopMusic s).1 = getMixedStream s ∧
    getMixedStream (setMusicVolume s v) = getMixedStream s ∧
    getMixedStream (setTeacherVolume s w) = getMixedStream s ∧
    getMixedStream (disconnect s) = getMixedStream s := by
  refine ⟨rfl, ?_, rfl, ?_, ?_, rfl, rfl, rfl⟩
  · cases ok <;> rfl
  · unfold startMusic
    cases s.musicSource <;> dsimp only [getMixedStream]
    split <;> [rfl; (split <;> rfl)]
  · unfold stopMusic
    cases s.musicSource <;> dsimp only [getMixedStream]
    split <;> rfl

theorem mem_removeEdgesFrom (n : Node) (l : List (Node × Node)) (e : Node × Node) :
    e ∈ removeEdgesFrom n l ↔ e ∈ l ∧ e.1 ≠ n := by
  simp [removeEdgesFrom]

theorem removeEdgesFrom_eq_self (n : Node) (l : List (Node × Node))
    (h : ∀ e ∈ l, e.1 ≠ n) : removeEdgesFrom n l = l := by
  rw [removeEdgesFrom, List.filter_eq_self]
  intro e he
  simpa using h e he

/-- Characterisation of the edges surviving `disconnect`: each was live
before and originates neither from the stored music source, nor from
the stored teacher source, nor from any of the three gain nodes. -/
theorem disconnect_mem (s : MixerState) (e : Node × Node)
    (he : e ∈ (disconnect s).connections) :
    e ∈ s.connections ∧
    (∀ id, s.musicSource = some id → e.1 ≠ Node.mediaElementSource id) ∧
    (∀ id st, s.teacherSource = some (id, st) → e.1 ≠ Node.mediaStreamSource id st) ∧
    e.1 ≠ Node.teacherGain ∧ e.1 ≠ Node.musicGain ∧ e.1 ≠ Node.masterGain := by
  cases hm : s.musicSource with
  | none =>
    cases ht : s.teacherSource with
    | none =>
      simp only [disconnect, hm, ht] at he
      obtain ⟨he, h5⟩ := (mem_removeEdgesFrom _ _ _).mp he
      obtain ⟨he, h4⟩ := (mem_removeEdgesFrom _ _ _).mp he
      obtain ⟨he, h3⟩ := (mem_removeEdgesFrom _ _ _).mp he
      refine ⟨he, ?_, ?_, h3, h4, h5⟩
      · intro id hsome; cases hsome
      · intro id st hsome; cases hsome
    | some p =>
      obtain ⟨tid, tst⟩ := p
      simp only [disconnect, hm, ht] at he
      obtain ⟨he, h5⟩ := (mem_removeEdgesFrom _ _ _).mp he
      obtain ⟨he, h4⟩ := (mem_removeEdgesFrom _ _ _).mp he
      obtain ⟨he, h3⟩ := (mem_removeEdgesFrom _ _ _).mp he
      obtain ⟨he, h2⟩ := (mem_removeEdgesFrom _ _ _).mp he
      refine ⟨he, ?_, ?_, h3, h4, h5⟩
      · intro id hsome; cases hsome
      · intro id st hsome
        injection hsome with hp
        injection hp with hp1 hp2
        rw [← hp1, ← hp2]
        exact h2
  | some mid =>
    cases ht : s.teacherSource with
    | none =>
      simp only [disconnect, hm, ht] at he
      obtain ⟨he, h5⟩ := (mem_removeEdgesFrom _ _ _).mp he
      obtain ⟨he, h4⟩ := (mem_removeEdgesFrom _ _ _).mp he
      obtain ⟨he, h3⟩ := (mem_removeEdgesFrom _ _ _).mp he
      obtain ⟨he, h1⟩ := (mem_removeEdgesFrom _ _ _).mp he
      refine ⟨he, ?_, ?_, h3, h4, h5⟩
      · intro id hsome
        injection hsome with hp
        rw [← hp]
        exact h1
      · intro id st hsome; cases hsome
    | some p =>
      obtain ⟨tid, tst⟩ := p
      simp only [disconnect, hm, ht] at he
      obtain ⟨he, h5⟩ := (mem_removeEdgesFrom _ _ _).mp he
      obtain ⟨he, h4⟩ := (mem_removeEdgesFrom _ _ _).mp he
      obtain ⟨he, h3⟩ := (mem_removeEdgesFrom _ _ _).mp he
      obtain ⟨he, h2⟩ := (mem_removeEdgesFrom _ _ _).mp he
      obtain ⟨he, h1⟩ := (mem_removeEdgesFrom _ _ _).mp he
      refine ⟨he, ?_, ?_, h3, h4, h5⟩
      · intro id hsome
        injection hsome with hp
        rw [← hp]
        exact h1
      · intro id st hsome
        injection hsome with hp
        injection hp with hp1 hp2
        rw [← hp1, ← hp2]
        exact h2

/-- If no live edge originates from a node `disconnect` would sever,
then `disconnect` is the identity. -/
theorem disconnect_eq_self_of_clean (s : MixerState)
    (h : ∀ e ∈ s.connections,
      (∀ id, s.musicSource = some id → e.1 ≠ Node.mediaElementSource id) ∧
      (∀ id st, s.teacherSource = some (id, st) → e.1 ≠ Node.mediaStreamSource id st) ∧
      e.1 ≠ Node.teacherGain ∧ e.1 ≠ Node.musicGain ∧ e.1 ≠ Node.masterGain) :
    disconnect s = s := by
  have h3 : ∀ e ∈ s.connections, e.1 ≠ Node.teacherGain := fun e he => (h e he).2.2.1
  have h4 : ∀ e ∈ s.connections, e.1 ≠ Node.musicGain := fun e he => (h e he).2.2.2.1
  have h5 : ∀ e ∈ s.connections, e.1 ≠ Node.masterGain := fun e he => (h e he).2.2.2.2
  cases hm : s.musicSource with
  | none =>
    cases ht : s.teacherSource with
    | none =>
      simp only [disconnect, hm, ht]
      rw [removeEdgesFrom_eq_self _ _ h3, removeEdgesFrom_eq_self _ _ h4,
        removeEdgesFrom_eq_self _ _ h5, ← hm, ← ht]
    | some p =>
      obtain ⟨tid, tst⟩ := p
      have h2 : ∀ e ∈ s.connections, e.1 ≠ Node.mediaStreamSource tid tst :=
        fun e he => (h e he).2.1 tid tst ht
      simp only [disconnect, hm, ht]
      rw [removeEdgesFrom_eq_self _ _ h2, removeEdgesFrom_eq_self _ _ h3,
        removeEdgesFrom_eq_self _ _ h4, removeEdgesFrom_eq_self _ _ h5, ← hm, ← ht]
  | some mid =>
    have h1 : ∀ e ∈ s.connections, e.1 ≠ Node.mediaElementSource mid :=
      fun e he => (h e he).1 mid hm
    cases ht : s.teacherSource with
    | none =>
      simp only [disconnect, hm, ht]
      rw [removeEdgesFrom_eq_self _ _ h1, removeEdgesFrom_eq_self _ _ h3,
        removeEdgesFrom_eq_self _ _ h4, removeEdgesFrom_eq_self _ _ h5, ← hm, ← ht]
    | some p =>
      obtain ⟨tid, tst⟩ := p
      have h2 : ∀ e ∈ s.connections, e.1 ≠ Node.mediaStreamSource tid tst :=
        fun e he => (h e he).2.1 tid tst ht
      simp only [disconnect, hm, ht]
      rw [removeEdgesFrom_eq_self _ _ h1, removeEdgesFrom_eq_self _ _ h2,
        removeEdgesFrom_eq_self _ _ h3, removeEdgesFrom_eq_self _ _ h4,
        removeEdgesFrom_eq_self _ _ h5, ← hm, ← ht]

theorem disconnect_disconnect (s : MixerState) :
    disconnect (disconnect s) = disconnect s :=
  disconnect_eq_self_of_clean (disconnect s) (fun e he => (disconnect_mem s e he).2)

/-- Counterexample to C3 as stated: there is no closed state after
disconnect — operations do not fail with a GraphClosedError but take
effect normally: the music volume setter still applies its value and a
music source can still be loaded successfully. -/
theorem ops_still_work_after_disconnect :
    (setMusicVolume (disconnect exState) (1 / 2)).musicGainValue = 1 / 2 ∧
    (loadMusic (disconnect exState) true).2 = true ∧
    (loadMusic (disconnect exState) true).1.musicSource = some 0 := by
  refine ⟨?_, rfl, rfl⟩
  show max 0 (min 1 (1 / 2 : ℚ)) = 1 / 2
  norm_num

/-- Claim C3 (amended): disconnect is total and idempotent — a second
call raises nothing and returns the identical state — but the mixer has
no closed state: operations invoked after disconnect do not fail with a
GraphClosedError; they execute normally (the volume setter applies the
clamped value, loadMusic succeeds and binds a new source, and the mixed
stream is still returned). -/
theorem disconnect_idempotent_not_closed (s : MixerState) (v : ℚ) :
    disconnect (disconnect s) = disconnect s ∧
    (setMusicVolume (disconnect s) v).musicGainValue = max 0 (min 1 v) ∧
    (loadMusic (disconnect s) true).2 = true ∧
    (loadMusic (disconnect s) true).1.musicSource = some (disconnect s).nextId ∧
    getMixedStream (disconnect s) = getMixedStream s :=
  ⟨disconnect_disconnect s, rfl, rfl, rfl, rfl⟩

/-- Counterexample to C1: attaching a second music source while one is
live leaves two connections into the music gain stage, not exactly one
— the first connection is orphaned, not disconnected. -/
theorem double_load_two_music_edges :
    (musicEdges (loadMusic (loadMusic exState true).1 true).1).length = 2 ∧
    (musicEdges (loadMusic (loadMusic exState true).1 true).1).length ≠ 1 := by
  constructor <;> decide

/-- Claim C1 (amended): loadMusic does not disconnect a previously
attached music source.  A successful load replaces the handle and adds
a fresh connection into the music gain stage while every prior
connection, including the prior music source's, stays live: the edge
list grows by exactly the new edge and the old edge persists as an
orphan. -/
theorem loadMusic_keeps_prior_connection (s : MixerState) (id : Nat)
    (h : s.musicSource = some id)
    (hmem : (Node.mediaElementSource id, Node.musicGain) ∈ s.connections) :
    (Node.mediaElementSource id, Node.musicGain) ∈ (loadMusic s true).1.connections ∧
    (loadMusic s true).1.musicSource = some s.nextId ∧
    musicEdges (loadMusic s true).1 =
      (Node.mediaElementSource s.nextId, Node.musicGain) :: musicEdges s := by
  refine ⟨List.mem_cons_of_mem _ hmem, rfl, ?_⟩
  simp [loadMusic, musicEdges]

/-- Witness for C1 (amended) at a mixer with one music source live. -/
theorem loadMusic_keeps_prior_connection_witness :
    (Node.mediaElementSource 0, Node.musicGain) ∈ (loadMusic exAttached true).1.connections ∧
    (loadMusic exAttached true).1.musicSource = some exAttached.nextId ∧
    musicEdges (loadMusic exAttached true).1 =
      (Node.mediaElementSource exAttached.nextId, Node.musicGain) :: musicEdges exAttached :=
  loadMusic_keeps_prior_connection exAttached 0 rfl (by decide)

/-- Claim C8: under the reachable-state invariants that every edge into
the teacher gain stage originates from the stored teacher source and
that the stored source id is fresh, setTeacherStream disconnects the
prior source and afterward the teacher gain stage is fed exclusively by
a source for the newly supplied stream; no edge of the prior source
node survives anywhere in the graph. -/
theorem setTeacherStream_exclusive (s : MixerState) (stream : Nat)
    (hinv : teacherOnlyCurrent s = true) (hfresh : teacherIdFresh s = true) :
    teacherEdges (setTeacherStream s stream) =
      [(Node.mediaStreamSource s.nextId stream, Node.teacherGain)] ∧
    ∀ id st, s.teacherSource = some (id, st) →
      ∀ d, (Node.mediaStreamSource id st, d) ∉ (setTeacherStream s stream).connections := by
  rw [teacherOnlyCurrent, List.all_eq_true] at hinv
  cases ht : s.teacherSource with
  | none =>
    have hconn : (setTeacherStream s stream).connections =
        (Node.mediaStreamSource s.nextId stream, Node.teacherGain) :: s.connections := by
      simp only [setTeacherStream, ht]
    have hnil : teacherEdges s = [] := by
      rw [List.eq_nil_iff_forall_not_mem]
      intro e he
      have hx := hinv e he
      rw [ht] at hx
      simp at hx
    constructor
    · show List.filter (fun e => decide (e.2 = Node.teacherGain))
        (setTeacherStream s stream).connections = _
      rw [hconn, List.filter_cons_of_pos (by simp)]
      have hnil' : List.filter (fun e => decide (e.2 = Node.teacherGain)) s.connections = [] :=
        hnil
      rw [hnil']
    · intro id st hsome
      cases hsome
  | some p =>
    obtain ⟨tid, tst⟩ := p
    have hconn : (setTeacherStream s stream).connections =
        (Node.mediaStreamSource s.nextId stream, Node.teacherGain) ::
          removeEdgesFrom (Node.mediaStreamSource tid tst) s.connections := by
      simp only [setTeacherStream, ht]
    have hsrc : ∀ e ∈ teacherEdges s, e.1 = Node.mediaStreamSource tid tst := by
      intro e he
      have hx := hinv e he
      rw [ht] at hx
      simpa using hx
    have hlt : tid < s.nextId := by
      have hx := hfresh
      simp only [teacherIdFresh, ht] at hx
      simpa using hx
    constructor
    · show List.filter (fun e => decide (e.2 = Node.teacherGain))
        (setTeacherStream s stream).connections = _
      rw [hconn, List.filter_cons_of_pos (by simp)]
      have hnil : List.filter (fun e => decide (e.2 = Node.teacherGain))
          (removeEdgesFrom (Node.mediaStreamSource tid tst) s.connections) = [] := by
        rw [List.filter_eq_nil_iff]
        intro e he hgain
        obtain ⟨hel, hne⟩ := (mem_removeEdgesFrom _ _ _).mp he
        exact hne (hsrc e (List.mem_filter.mpr ⟨hel, hgain⟩))
      rw [hnil]
    · intro id st hsome d hd
      injection hsome with hp
      injection hp with hp1 hp2
      subst hp1
      subst hp2
      rw [hconn] at hd
      rcases List.mem_cons.mp hd with hhead | htail
      · have hfst : Node.mediaStreamSource tid tst = Node.mediaStreamSource s.nextId stream :=
          congrArg Prod.fst hhead
        injection hfst with he1 he2
        omega
      · obtain ⟨hmem2, hne⟩ := (mem_removeEdgesFrom _ _ _).mp htail
        exact hne rfl

/-- A mixer with a teacher source attached (used as the C8 witness
starting state). -/
def exTeacher : MixerState := setTeacherStream exState 7

/-- Witness for C8: replacing the teacher stream 7 by stream 9 leaves
exactly the new connection feeding the teacher gain stage. -/
theorem setTeacherStream_exclusive_witness :
    (teacherEdges (setTeacherStream exTeacher 9) =
      [(Node.mediaStreamSource exTeacher.nextId 9, Node.teacherGain)]) ∧
    ∀ id st, exTeacher.teacherSource = some (id, st) →
      ∀ d, (Node.mediaStreamSource id st, d) ∉ (setTeacherStream exTeacher 9).connections :=
  setTeacherStream_exclusive exTeacher 9 (by decide) (by decide)

end AudioMixer
